import Mathlib

/-!
Verification of the capture-orchestration subsystem of the photo-booth
appliance (`cam.py`): the camera abstraction with auto-calibrated exposure
settings, the periodic recalibration timer, the LED indicator lock protocol,
and the two camera backends (library mode / external-tool mode with
diagnostic-text parsing).

The embedding follows the Python source closely:

* Python exceptions are modelled with `Except PyErr`; machine floats that
  only ever hold exactly-representable small values (gains, shutter speeds,
  LED brightness) are modelled as rationals.
* `re.finditer` applied to the two fixed diagnostic grammars is modelled by
  a deterministic left-to-right scanner (`finditer`).  For these patterns a
  greedy scanner is exact: every `[0-9]*` group is followed by a literal
  that starts with a non-digit (`,`, `/`) or by the end of the pattern, so
  the regex engine never needs to backtrack into a digit group.
* The mutual-exclusion protocol between the main control loop (`take_photo`)
  and the background recalibration timer (`update_settings`) is modelled as
  an interleaving transition system over a small shared state.
-/

set_option maxRecDepth 8000

namespace InfluencerTrap

/-! ## Python-level primitives -/

/-- Python exceptions that the modelled code can raise. -/
inductive PyErr
  | indexError
  | attributeError
  | valueError
  | zeroDivisionError
deriving DecidableEq

/-- Value of the digit string matched by a `[0-9]*` group. -/
def digitsToNat (l : List Char) : Nat :=
  l.foldl (fun acc c => acc * 10 + (c.toNat - 48)) 0

/-- Python `float(s)` for the digit strings captured by the `[0-9]*` groups:
Python float of the empty string raises `ValueError`; a non-empty digit
string parses exactly. -/
def pyFloatOfDigits (s : String) : Except PyErr ℚ :=
  if s = "" then .error .valueError
  else .ok (digitsToNat s.data : ℚ)

deriving instance DecidableEq for Except

/-- Python float division: raises `ZeroDivisionError` on a zero divisor. -/
def pyDiv (a b : ℚ) : Except PyErr ℚ :=
  if b = 0 then .error .zeroDivisionError else .ok (a / b)

/-- Exception-propagating sequencing, the `Except` bind written explicitly so
that proofs can rewrite with the two equations below. -/
def bindE {α β : Type} (x : Except PyErr α) (f : α → Except PyErr β) :
    Except PyErr β :=
  match x with
  | .error e => .error e
  | .ok a => f a

@[simp] theorem bindE_error {α β : Type} (e : PyErr) (f : α → Except PyErr β) :
    bindE (.error e) f = .error e := rfl

@[simp] theorem bindE_ok {α β : Type} (a : α) (f : α → Except PyErr β) :
    bindE (.ok a) f = f a := rfl

/-! ## The two fixed diagnostic-stream grammars

`RaspiStillCamera.update_capture_settings` scrapes `raspistill --settings`
stderr with two regexes:

* `mmal: Exposure now (?P<exposure>[0-9]*), analog gain
  (?P<analog_gain_n>[0-9]*)/(?P<analog_gain_d>[0-9]*), digital gain
  (?P<digital_gain_n>[0-9]*)/(?P<digital_gain_d>[0-9]*)`
* `mmal: AWB R=(?P<awb_r_n>[0-9]*)/(?P<awb_r_d>[0-9]*),
  B=(?P<awb_b_n>[0-9]*)/(?P<awb_b_d>[0-9]*)`

(`re.MULTILINE` only affects `^`/`$`, which neither pattern uses.)
-/

/-- Captured groups of the exposure/gain line. -/
structure ExpGroups where
  exposure : String
  analog_gain_n : String
  analog_gain_d : String
  digital_gain_n : String
  digital_gain_d : String
deriving DecidableEq

/-- Captured groups of the AWB line. -/
structure AwbGroups where
  awb_r_n : String
  awb_r_d : String
  awb_b_n : String
  awb_b_d : String
deriving DecidableEq

/-- Match a literal, returning the remainder of the input. -/
def stripLit : List Char → List Char → Option (List Char)
  | [], s => some s
  | _ :: _, [] => none
  | c :: lit, d :: s => if c = d then stripLit lit s else none

/-- Greedy `[0-9]*`: the maximal digit run and the remainder. -/
def takeDigits : List Char → List Char × List Char
  | [] => ([], [])
  | c :: s =>
    if c.isDigit then
      let (ds, r) := takeDigits s
      (c :: ds, r)
    else ([], c :: s)

/-- Try to match the exposure/gain pattern at the head of the input. -/
def matchExpAt (s : List Char) : Option (ExpGroups × List Char) := do
  let s ← stripLit "mmal: Exposure now ".data s
  let (e, s) := takeDigits s
  let s ← stripLit ", analog gain ".data s
  let (an, s) := takeDigits s
  let s ← stripLit "/".data s
  let (ad, s) := takeDigits s
  let s ← stripLit ", digital gain ".data s
  let (dn, s) := takeDigits s
  let s ← stripLit "/".data s
  let (dd, s) := takeDigits s
  return ({ exposure := String.mk e, analog_gain_n := String.mk an,
            analog_gain_d := String.mk ad, digital_gain_n := String.mk dn,
            digital_gain_d := String.mk dd }, s)

/-- Try to match the AWB pattern at the head of the input. -/
def matchAwbAt (s : List Char) : Option (AwbGroups × List Char) := do
  let s ← stripLit "mmal: AWB R=".data s
  let (rn, s) := takeDigits s
  let s ← stripLit "/".data s
  let (rd, s) := takeDigits s
  let s ← stripLit ", B=".data s
  let (bn, s) := takeDigits s
  let s ← stripLit "/".data s
  let (bd, s) := takeDigits s
  return ({ awb_r_n := String.mk rn, awb_r_d := String.mk rd,
            awb_b_n := String.mk bn, awb_b_d := String.mk bd }, s)

/-- Left-to-right non-overlapping scan, the semantics of `re.finditer` for
the deterministic patterns above.  The fuel starts at `length + 1`; both
repo patterns consume at least their non-empty literal prefix on every
match, so the fuel is never exhausted on them. -/
def finditerAux {α : Type} (matchAt : List Char → Option (α × List Char)) :
    Nat → List Char → List α
  | 0, _ => []
  | fuel + 1, s =>
    match matchAt s with
    | some (m, rest) => m :: finditerAux matchAt fuel rest
    | none =>
      match s with
      | [] => []
      | _ :: t => finditerAux matchAt fuel t

/-- All matches of a pattern in a string, in order. -/
def finditer {α : Type} (matchAt : List Char → Option (α × List Char))
    (s : List Char) : List α :=
  finditerAux matchAt (s.length + 1) s

/-- Python truthiness of the iterator object returned by `re.finditer`: an
iterator defines neither `__bool__` nor `__len__`, so it is always truthy,
match or no match. -/
def iterTruthy {α : Type} (_ms : List α) : Bool := true

/-- `find_last_match(pattern, string)` from `cam.py`:

    matches = re.finditer(pattern, string, re.MULTILINE)
    if matches:
        return list(matches)[-1]
    return None

The guard tests the iterator object, so the `return None` branch is taken
only if `iterTruthy` were false; `list(matches)[-1]` raises `IndexError`
when there is no match.  `.ok none` models `return None`. -/
def find_last_match {α : Type} (matchAt : List Char → Option (α × List Char))
    (s : String) : Except PyErr (Option α) :=
  let ms := finditer matchAt s.data
  if iterTruthy ms then
    match ms.getLast? with
    | some m => .ok (some m)
    | none => .error .indexError
  else
    .ok none

/-- Python `m.group(...)` after `find_last_match`: calling `.group` on `None`
would raise `AttributeError` (this branch is unreachable, see
`find_last_match`). -/
def getMatch {α : Type} (m : Option α) : Except PyErr α :=
  match m with
  | some a => .ok a
  | none => .error .attributeError

/-! ## CaptureSettings and the external-tool calibration -/

/-- The calibrated settings dict: `analog_gain`/`digital_gain` may be `None`
(library mode leaves them unset). -/
structure CaptureSettings where
  analog_gain : Option ℚ
  digital_gain : Option ℚ
  shutter_speed : ℚ
  awb_gains : ℚ × ℚ
deriving DecidableEq

/-- `RaspiStillCamera.update_capture_settings`, as a function of the stderr
text of the probe invocation (the `raspistill --settings` call and the
display power-cycling around it are I/O whose only data flow into the
parser is this string).  Field order follows the Python dict literal:
analog gain, digital gain, shutter speed, AWB gains. -/
def raspistill_update_capture_settings (stderrStr : String) :
    Except PyErr CaptureSettings :=
  bindE (find_last_match matchExpAt stderrStr) fun m1o =>
  bindE (find_last_match matchAwbAt stderrStr) fun m2o =>
  bindE (getMatch m1o) fun m1 =>
  bindE (getMatch m2o) fun m2 =>
  bindE (pyFloatOfDigits m1.analog_gain_n) fun agn =>
  bindE (pyFloatOfDigits m1.analog_gain_d) fun agd =>
  bindE (pyDiv agn agd) fun ag =>
  bindE (pyFloatOfDigits m1.digital_gain_n) fun dgn =>
  bindE (pyFloatOfDigits m1.digital_gain_d) fun dgd =>
  bindE (pyDiv dgn dgd) fun dg =>
  bindE (pyFloatOfDigits m1.exposure) fun ss =>
  bindE (pyFloatOfDigits m2.awb_r_n) fun rn =>
  bindE (pyFloatOfDigits m2.awb_r_d) fun rd =>
  bindE (pyDiv rn rd) fun r =>
  bindE (pyFloatOfDigits m2.awb_b_n) fun bn =>
  bindE (pyFloatOfDigits m2.awb_b_d) fun bd =>
  bindE (pyDiv bn bd) fun b =>
  .ok { analog_gain := some ag, digital_gain := some dg,
        shutter_speed := ss, awb_gains := (r, b) }

/-! ## PixelArray: the LED indicator and its lock

`PixelArray.flash_on` / `flash_off` wrap `threading.Lock` acquisition and
release around the LED "busy" signal.  The externally observable behaviour
of one call is its sequence of primitive effects, recorded as events;
sleeps are in milliseconds, brightness as the exact rational value of the
Python float constants `0.2` and `0.05`. -/

namespace PixelArray

/-- `FLASH_BRIGHTNESS = 0.2`. -/
def FLASH_BRIGHTNESS : ℚ := 1 / 5

/-- `IDLE_BRIGHTNESS = 0.05`. -/
def IDLE_BRIGHTNESS : ℚ := 1 / 20

end PixelArray

/-- Primitive effects of the pixel array. -/
inductive PixelEvent
  | acquireLock
  | releaseLock
  | setBrightness (b : ℚ)
  | fill (r g b : Nat)
  | showPixels
  | sleepMs (ms : Nat)
deriving DecidableEq

/-- One iteration of the `for i in range(3)` countdown loop: red for 0.5 s,
then off for 1 s. -/
def countdownCycle : List PixelEvent :=
  [.fill 255 0 0, .showPixels, .sleepMs 500,
   .fill 0 0 0, .showPixels, .sleepMs 1000]

/-- `PixelArray.flash_on(countdown)`: acquire the pixel lock, raise the
brightness to the flash level, optionally run the 3-cycle countdown, then
fill solid white.  The Python default is `countdown=True`. -/
def flash_on (countdown : Bool) : List PixelEvent :=
  [.acquireLock, .setBrightness PixelArray.FLASH_BRIGHTNESS] ++
  (if countdown then countdownCycle ++ countdownCycle ++ countdownCycle
   else []) ++
  [.fill 255 255 255, .showPixels]

/-- `PixelArray.flash_off()`: restore idle brightness, clear to black, then
release the pixel lock. -/
def flash_off : List PixelEvent :=
  [.setBrightness PixelArray.IDLE_BRIGHTNESS, .fill 0 0 0, .showPixels,
   .releaseLock]

/-- Total milliseconds slept by a pixel-event sequence. -/
def sleepTotal (l : List PixelEvent) : Nat :=
  (l.map fun e => match e with | .sleepMs n => n | _ => 0).sum

/-! ## The Camera controller, sequential model

`Camera.__init__` runs one blocking calibration, `update_settings` is both
the calibration entry point and the `threading.Timer` callback, and
`take_photo` is the capture entry point.  Neither method has a
`try/finally`: an exception raised by the backend operation inside the
`with self.settings_lock:` block skips `flash_off` (so the pixel lock stays
held) while the `with` statement itself still releases `settings_lock`. -/

/-- State of the `threading.Timer` held in `settings_update_timer`:
not created yet, scheduled with a delay in seconds, already fired (its
callback in flight or finished), or cancelled.  `Timer.cancel` only stops a
timer that is still waiting. -/
inductive TimerState
  | notStarted
  | pending (delaySec : Nat)
  | fired
  | cancelled
deriving DecidableEq

/-- `threading.Timer.cancel()`: cancels a waiting timer, has no effect once
the timer has fired (an in-flight callback is not aborted). -/
def timer_cancel : TimerState → TimerState
  | .pending _ => .cancelled
  | t => t

/-- Observable controller state: the cached settings dict (absent before the
first successful calibration), the recalibration timer, whether the pixel
lock is held, and the LED brightness. -/
structure CamState where
  settings : Option CaptureSettings
  timer : TimerState
  pixelLockHeld : Bool
  brightness : ℚ
deriving DecidableEq

/-- Events emitted by one controller operation. -/
inductive CamEvent
  | acquireSettingsLock
  | releaseSettingsLock
  | pix (e : PixelEvent)
  | calibrate
  | capture (path : String)
  | startTimer (delaySec : Nat)
deriving DecidableEq

namespace Camera

/-- `SETTINGS_UPDATE_INTERVAL = 10 * 60` seconds. -/
def SETTINGS_UPDATE_INTERVAL : Nat := 10 * 60

end Camera

/-- `Camera.update_settings`, with the polymorphic
`self.update_capture_settings()` outcome passed in as `calib`:

    with self.settings_lock:
        self.pixel_array.flash_on(countdown=False)
        self.settings = self.update_capture_settings()
        self.pixel_array.flash_off()
    ... prints ...
    self.settings_update_timer = threading.Timer(SETTINGS_UPDATE_INTERVAL,
                                                 self.update_settings)
    self.settings_update_timer.start()

On a calibration exception the assignment to `self.settings` does not
happen, `flash_off` is skipped (pixel lock kept, flash brightness kept),
the `with` statement releases `settings_lock`, and no new timer is
started. -/
def camera_update_settings (st : CamState)
    (calib : Except PyErr CaptureSettings) :
    Except PyErr Unit × CamState × List CamEvent :=
  let evts0 := [CamEvent.acquireSettingsLock] ++
    (flash_on false).map CamEvent.pix
  let st0 : CamState :=
    { st with pixelLockHeld := true,
              brightness := PixelArray.FLASH_BRIGHTNESS }
  match calib with
  | .error e =>
    (.error e, st0, evts0 ++ [.calibrate, .releaseSettingsLock])
  | .ok s =>
    let st1 : CamState :=
      { st0 with settings := some s,
                 brightness := PixelArray.IDLE_BRIGHTNESS,
                 pixelLockHeld := false,
                 timer := .pending Camera.SETTINGS_UPDATE_INTERVAL }
    (.ok (), st1,
     evts0 ++ [.calibrate] ++ flash_off.map CamEvent.pix ++
       [.releaseSettingsLock, .startTimer Camera.SETTINGS_UPDATE_INTERVAL])

/-- `Camera.take_photo(output_path)`, with the polymorphic
`self.capture_image(output_path)` outcome passed in as `captureResult`:

    with self.settings_lock:
        self.pixel_array.flash_on()
        self.capture_image(output_path)
        self.pixel_array.flash_off()

`flash_on()` uses the default `countdown=True`.  On a capture exception
`flash_off` is skipped exactly as in `update_settings`. -/
def camera_take_photo (st : CamState) (path : String)
    (captureResult : Except PyErr Unit) :
    Except PyErr Unit × CamState × List CamEvent :=
  let evts0 := [CamEvent.acquireSettingsLock] ++
    (flash_on true).map CamEvent.pix
  let st0 : CamState :=
    { st with pixelLockHeld := true,
              brightness := PixelArray.FLASH_BRIGHTNESS }
  match captureResult with
  | .error e =>
    (.error e, st0, evts0 ++ [.capture path, .releaseSettingsLock])
  | .ok _ =>
    let st1 : CamState :=
      { st0 with brightness := PixelArray.IDLE_BRIGHTNESS,
                 pixelLockHeld := false }
    (.ok (), st1,
     evts0 ++ [.capture path] ++ flash_off.map CamEvent.pix ++
       [.releaseSettingsLock])

/-- `Camera.__init__(resolution, pixel_array)`: stores the configuration and
immediately runs `self.update_settings()` once, blocking; the constructor
itself raises if that first calibration raises. -/
def camera_init (calib : Except PyErr CaptureSettings) :
    Except PyErr CamState × List CamEvent :=
  let st0 : CamState :=
    { settings := none, timer := .notStarted, pixelLockHeld := false,
      brightness := PixelArray.IDLE_BRIGHTNESS }
  match camera_update_settings st0 calib with
  | (.ok _, st, evts) => (.ok st, evts)
  | (.error e, _, evts) => (.error e, evts)

/-- `Camera.destroy()`: `self.settings_update_timer.cancel()`. -/
def camera_destroy (st : CamState) : CamState :=
  { st with timer := timer_cancel st.timer }

/-! ## PyCamera (library mode) -/

/-- The values the scoped `PiCamera` session reports after the settle wait:
`exposure_speed` and the `awb_gains` pair (converted to floats). -/
structure PiCameraSession where
  exposure_speed : ℚ
  awb_gains : ℚ × ℚ
deriving DecidableEq

/-- Effects of the library-mode calibration. -/
inductive PiCamEvent
  | openCamera (w h : Nat)
  | sleepSec (s : Nat)
  | readExposureSpeed
  | readAwbGains
  | closeCamera
deriving DecidableEq

/-- `PyCamera.update_capture_settings`: open a scoped `PiCamera` session at
the configured resolution, sleep 2 s for auto-gain convergence, then read
`exposure_speed` and `awb_gains`; `analog_gain`/`digital_gain` stay `None`. -/
def pycamera_update_capture_settings (w h : Nat)
    (session : PiCameraSession) : CaptureSettings × List PiCamEvent :=
  ({ analog_gain := none, digital_gain := none,
     shutter_speed := session.exposure_speed,
     awb_gains := session.awb_gains },
   [.openCamera w h, .sleepSec 2, .readExposureSpeed, .readAwbGains,
    .closeCamera])

/-! ## RaspiStillCamera.capture_image command line -/

/-- Argument list of the `subprocess.call` in `RaspiStillCamera.capture_image`.
`fstr` is the Python `str` rendering of the float being formatted (the
command embeds `str(settings[...])` verbatim); `pyStrOptFloat` extends it to
the optional gain fields exactly as `str` would (`str(None) = "None"`, never reached for
`raspistill`-calibrated settings whose gains are always floats). -/
def pyStrOptFloat (fstr : ℚ → String) : Option ℚ → String
  | none => "None"
  | some q => fstr q

/-- The full `raspistill` capture invocation from `cam.py`. -/
def raspistill_capture_image_cmd (fstr : ℚ → String) (output_path : String)
    (resolution : Nat × Nat) (settings : CaptureSettings) : List String :=
  ["raspistill",
   "--output", output_path,
   "--thumb", "none",
   "--width", toString resolution.1,
   "--height", toString resolution.2,
   "--analoggain", pyStrOptFloat fstr settings.analog_gain,
   "--digitalgain", pyStrOptFloat fstr settings.digital_gain,
   "--exposure", "off",
   "--shutter", fstr settings.shutter_speed,
   "--awb", "off",
   "--awbgains", fstr settings.awb_gains.1 ++ "," ++ fstr settings.awb_gains.2,
   "--timeout", "1",
   "--nopreview",
   "--verbose"]

/-- A two-element run `x, y` occurring adjacently in a list: `l` splits as
`l1 ++ x :: y :: l2`.  Used to state that a flag is passed with a given
value. -/
def HasAdjPair {α : Type} (x y : α) (l : List α) : Prop :=
  ∃ l1 l2, l = l1 ++ x :: y :: l2

/-- The documented fixed argument surface of the external capture tool
(spec §6): output path, resolution, auto-exposure and auto-white-balance
disabled with explicit numeric overrides, thumbnail disabled, short fixed
timeout.  Modelled from the spec: this is the spec-side characterisation
the source command is checked against. -/
def DocumentedCaptureSurface (cmd : List String) (output_path : String)
    (w h : Nat) (ag dg ss awbR awbB : String) : Prop :=
  cmd.head? = some "raspistill" ∧
  HasAdjPair "--output" output_path cmd ∧
  HasAdjPair "--width" (toString w) cmd ∧
  HasAdjPair "--height" (toString h) cmd ∧
  HasAdjPair "--exposure" "off" cmd ∧
  HasAdjPair "--awb" "off" cmd ∧
  HasAdjPair "--analoggain" ag cmd ∧
  HasAdjPair "--digitalgain" dg cmd ∧
  HasAdjPair "--shutter" ss cmd ∧
  HasAdjPair "--awbgains" (awbR ++ "," ++ awbB) cmd ∧
  HasAdjPair "--thumb" "none" cmd ∧
  HasAdjPair "--timeout" "1" cmd

/-! ## Concurrent model: main loop vs. recalibration timer

Two actors share the controller: actor A is the main control loop running
`take_photo`, actor B is the timer thread running `update_settings`.  Both
enter `with self.settings_lock:` and then acquire the pixel lock inside
`flash_on`; blocking lock acquisition is modelled by the acquire steps
being enabled only when the lock is free.  Calibration results are
abstracted to generation numbers: the backend call of B builds generation
`g` locally (first a half-built dict, then the complete one it returns), and
only the completed value is ever assigned to the shared `self.settings`
cache, as a whole. -/

/-- The two threads. -/
inductive Actor
  | actA
  | actB
deriving DecidableEq

/-- Program counter of the main loop (`take_photo`).  `errRel` and `dead`
are the exception path: capture raised, `flash_off` was skipped, and the
pixel lock is never released. -/
inductive APC
  | idle
  | flashOn
  | capturing
  | flashOff
  | relSettings
  | errRel
  | dead
deriving DecidableEq

/-- Program counter of the timer thread (`update_settings`). -/
inductive BPC
  | idle
  | flashOn
  | calibStart
  | calibBusy
  | publishing
  | flashOff
  | relSettings
  | errRel
  | dead
deriving DecidableEq

/-- A calibration value in flight: half-built inside the backend call, or
the complete dict the backend call returned. -/
inductive CalVal
  | building (gen : Nat)
  | complete (gen : Nat)
deriving DecidableEq

/-- Does this `take_photo` location hold `settings_lock`? -/
def APC.holdsSettings : APC → Bool
  | .idle => false
  | .dead => false
  | _ => true

/-- Does this `take_photo` location hold the pixel lock?  The error exit
keeps it forever. -/
def APC.holdsPixel : APC → Bool
  | .capturing => true
  | .flashOff => true
  | .errRel => true
  | .dead => true
  | _ => false

/-- Does this `update_settings` location hold `settings_lock`? -/
def BPC.holdsSettings : BPC → Bool
  | .idle => false
  | .dead => false
  | _ => true

/-- Does this `update_settings` location hold the pixel lock? -/
def BPC.holdsPixel : BPC → Bool
  | .calibStart => true
  | .calibBusy => true
  | .publishing => true
  | .flashOff => true
  | .errRel => true
  | .dead => true
  | _ => false

/-- Shared system state: both program counters, the two locks, the
published settings cache, the local calibration value of B, the next
generation number, and the ghost list of generations whose backend call
has completed. -/
structure Sys where
  pcA : APC
  pcB : BPC
  sLock : Option Actor
  pLock : Option Actor
  cache : CalVal
  localB : Option CalVal
  nextGen : Nat
  completed : List Nat
deriving DecidableEq

/-- State after `Camera.__init__`: the blocking constructor calibration
(generation 0) has completed and been published, both locks are free,
neither thread is in an operation. -/
def initSys : Sys :=
  { pcA := .idle, pcB := .idle, sLock := none, pLock := none,
    cache := .complete 0, localB := none, nextGen := 1, completed := [0] }

/-- One interleaved atomic step of either thread. -/
inductive SysStep : Sys → Sys → Prop
  | aAcqSettings (s : Sys) (h1 : s.pcA = .idle) (h2 : s.sLock = none) :
      SysStep s { s with pcA := .flashOn, sLock := some .actA }
  | aAcqPixel (s : Sys) (h1 : s.pcA = .flashOn) (h2 : s.pLock = none) :
      SysStep s { s with pcA := .capturing, pLock := some .actA }
  | aCaptureOk (s : Sys) (h1 : s.pcA = .capturing) :
      SysStep s { s with pcA := .flashOff }
  | aCaptureRaise (s : Sys) (h1 : s.pcA = .capturing) :
      SysStep s { s with pcA := .errRel }
  | aFlashOff (s : Sys) (h1 : s.pcA = .flashOff) :
      SysStep s { s with pcA := .relSettings, pLock := none }
  | aRelSettings (s : Sys) (h1 : s.pcA = .relSettings) :
      SysStep s { s with pcA := .idle, sLock := none }
  | aErrRelSettings (s : Sys) (h1 : s.pcA = .errRel) :
      SysStep s { s with pcA := .dead, sLock := none }
  | bAcqSettings (s : Sys) (h1 : s.pcB = .idle) (h2 : s.sLock = none) :
      SysStep s { s with pcB := .flashOn, sLock := some .actB }
  | bAcqPixel (s : Sys) (h1 : s.pcB = .flashOn) (h2 : s.pLock = none) :
      SysStep s { s with pcB := .calibStart, pLock := some .actB }
  | bCalibBuild (s : Sys) (h1 : s.pcB = .calibStart) :
      SysStep s { s with pcB := .calibBusy,
                         localB := some (.building s.nextGen) }
  | bCalibRet (s : Sys) (h1 : s.pcB = .calibBusy) :
      SysStep s { s with pcB := .publishing,
                         localB := some (.complete s.nextGen),
                         completed := s.nextGen :: s.completed }
  | bCalibRaise (s : Sys) (h1 : s.pcB = .calibBusy) :
      SysStep s { s with pcB := .errRel, localB := none }
  | bPublish (s : Sys) (v : CalVal) (h1 : s.pcB = .publishing)
      (h2 : s.localB = some v) :
      SysStep s { s with pcB := .flashOff, cache := v,
                         nextGen := s.nextGen + 1, localB := none }
  | bFlashOff (s : Sys) (h1 : s.pcB = .flashOff) :
      SysStep s { s with pcB := .relSettings, pLock := none }
  | bRelSettings (s : Sys) (h1 : s.pcB = .relSettings) :
      SysStep s { s with pcB := .idle, sLock := none }
  | bErrRelSettings (s : Sys) (h1 : s.pcB = .errRel) :
      SysStep s { s with pcB := .dead, sLock := none }

/-- States reachable from the post-constructor state. -/
def Reachable (s : Sys) : Prop :=
  Relation.ReflTransGen SysStep initSys s

/-- The inductive invariant: each lock is held exactly by the thread whose
program counter is inside the corresponding region; the published cache is
always a complete value of a completed backend call; the local value of B
tracks its calibration phase. -/
def SysInv (s : Sys) : Prop :=
  (s.sLock = some .actA ↔ s.pcA.holdsSettings = true) ∧
  (s.sLock = some .actB ↔ s.pcB.holdsSettings = true) ∧
  (s.pLock = some .actA ↔ s.pcA.holdsPixel = true) ∧
  (s.pLock = some .actB ↔ s.pcB.holdsPixel = true) ∧
  (∃ g, s.cache = .complete g ∧ g ∈ s.completed) ∧
  (s.pcB = .calibBusy → s.localB = some (.building s.nextGen)) ∧
  (s.pcB = .publishing →
    s.localB = some (.complete s.nextGen) ∧ s.nextGen ∈ s.completed)

theorem sysInv_init : SysInv initSys := by
  refine ⟨?_, ?_, ?_, ?_, ⟨0, rfl, ?_⟩, ?_, ?_⟩ <;>
    simp [initSys, APC.holdsSettings, BPC.holdsSettings, APC.holdsPixel,
      BPC.holdsPixel]

theorem sysInv_step {s t : Sys} (hinv : SysInv s) (hstep : SysStep s t) :
    SysInv t := by
  obtain ⟨h1, h2, h3, h4, h5, h6, h7⟩ := hinv
  cases hstep with
  | aAcqSettings ha hb =>
    refine ⟨?_, ?_, ?_, ?_, h5, h6, h7⟩ <;>
      simp_all [APC.holdsSettings, BPC.holdsSettings, APC.holdsPixel,
        BPC.holdsPixel]
  | aAcqPixel ha hb =>
    refine ⟨?_, ?_, ?_, ?_, h5, h6, h7⟩ <;>
      simp_all [APC.holdsSettings, BPC.holdsSettings, APC.holdsPixel,
        BPC.holdsPixel]
  | aCaptureOk ha =>
    refine ⟨?_, ?_, ?_, ?_, h5, h6, h7⟩ <;>
      simp_all [APC.holdsSettings, BPC.holdsSettings, APC.holdsPixel,
        BPC.holdsPixel]
  | aCaptureRaise ha =>
    refine ⟨?_, ?_, ?_, ?_, h5, h6, h7⟩ <;>
      simp_all [APC.holdsSettings, BPC.holdsSettings, APC.holdsPixel,
        BPC.holdsPixel]
  | aFlashOff ha =>
    refine ⟨?_, ?_, ?_, ?_, h5, h6, h7⟩ <;>
      simp_all [APC.holdsSettings, BPC.holdsSettings, APC.holdsPixel,
        BPC.holdsPixel]
  | aRelSettings ha =>
    refine ⟨?_, ?_, ?_, ?_, h5, h6, h7⟩ <;>
      simp_all [APC.holdsSettings, BPC.holdsSettings, APC.holdsPixel,
        BPC.holdsPixel]
  | aErrRelSettings ha =>
    refine ⟨?_, ?_, ?_, ?_, h5, h6, h7⟩ <;>
      simp_all [APC.holdsSettings, BPC.holdsSettings, APC.holdsPixel,
        BPC.holdsPixel]
  | bAcqSettings ha hb =>
    refine ⟨?_, ?_, ?_, ?_, h5, ?_, ?_⟩ <;>
      simp_all [APC.holdsSettings, BPC.holdsSettings, APC.holdsPixel,
        BPC.holdsPixel]
  | bAcqPixel ha hb =>
    refine ⟨?_, ?_, ?_, ?_, h5, ?_, ?_⟩ <;>
      simp_all [APC.holdsSettings, BPC.holdsSettings, APC.holdsPixel,
        BPC.holdsPixel]
  | bCalibBuild ha =>
    refine ⟨?_, ?_, ?_, ?_, h5, ?_, ?_⟩ <;>
      simp_all [APC.holdsSettings, BPC.holdsSettings, APC.holdsPixel,
        BPC.holdsPixel]
  | bCalibRet ha =>
    obtain ⟨g, hg, hgmem⟩ := h5
    refine ⟨?_, ?_, ?_, ?_, ⟨g, hg, ?_⟩, ?_, ?_⟩ <;>
      simp_all [APC.holdsSettings, BPC.holdsSettings, APC.holdsPixel,
        BPC.holdsPixel]
  | bCalibRaise ha =>
    refine ⟨?_, ?_, ?_, ?_, h5, ?_, ?_⟩ <;>
      simp_all [APC.holdsSettings, BPC.holdsSettings, APC.holdsPixel,
        BPC.holdsPixel]
  | bPublish v ha hb =>
    obtain ⟨hloc, hmem⟩ := h7 ha
    have hv : v = CalVal.complete _ := Option.some.inj (hb.symm.trans hloc)
    subst hv
    refine ⟨?_, ?_, ?_, ?_, ⟨_, rfl, hmem⟩, ?_, ?_⟩ <;>
      simp_all [APC.holdsSettings, BPC.holdsSettings, APC.holdsPixel,
        BPC.holdsPixel]
  | bFlashOff ha =>
    refine ⟨?_, ?_, ?_, ?_, h5, ?_, ?_⟩ <;>
      simp_all [APC.holdsSettings, BPC.holdsSettings, APC.holdsPixel,
        BPC.holdsPixel]
  | bRelSettings ha =>
    refine ⟨?_, ?_, ?_, ?_, h5, ?_, ?_⟩ <;>
      simp_all [APC.holdsSettings, BPC.holdsSettings, APC.holdsPixel,
        BPC.holdsPixel]
  | bErrRelSettings ha =>
    refine ⟨?_, ?_, ?_, ?_, h5, ?_, ?_⟩ <;>
      simp_all [APC.holdsSettings, BPC.holdsSettings, APC.holdsPixel,
        BPC.holdsPixel]

theorem reachable_inv {s : Sys} (h : Reachable s) : SysInv s := by
  induction h with
  | refl => exact sysInv_init
  | tail _ hst ih => exact sysInv_step ih hst

/-! ## Shared helper lemmas and example values -/

theorem find_last_match_eq_error {α : Type}
    (matchAt : List Char → Option (α × List Char)) (s : String)
    (h : finditer matchAt s.data = ([] : List α)) :
    find_last_match matchAt s = .error .indexError := by
  simp [find_last_match, iterTruthy, h]

theorem find_last_match_eq_ok {α : Type}
    (matchAt : List Char → Option (α × List Char)) (s : String) (m : α)
    (h : (finditer matchAt s.data).getLast? = some m) :
    find_last_match matchAt s = .ok (some m) := by
  simp [find_last_match, iterTruthy, h]

theorem HasAdjPair.here {α : Type} (x y : α) (l : List α) :
    HasAdjPair x y (x :: y :: l) := ⟨[], l, rfl⟩

theorem HasAdjPair.cons {α : Type} (z : α) {x y : α} {l : List α}
    (h : HasAdjPair x y l) : HasAdjPair x y (z :: l) := by
  obtain ⟨l1, l2, hl⟩ := h
  exact ⟨z :: l1, l2, by rw [hl]; rfl⟩

/-- Is this event the pixel-lock release performed by `flash_off`? -/
def isPixRelease : CamEvent → Bool
  | .pix .releaseLock => true
  | _ => false

/-- Is this event the release of `settings_lock`? -/
def isRelSettings : CamEvent → Bool
  | .releaseSettingsLock => true
  | _ => false

/-- Is this event a countdown red-phase sleep (0.5 s)? -/
def isSleep500 : CamEvent → Bool
  | .pix (.sleepMs 500) => true
  | _ => false

/-- Is this event a backend calibration call? -/
def isCalibrate : CamEvent → Bool
  | .calibrate => true
  | _ => false

/-- Is this event the 2 s auto-gain settle wait of library mode? -/
def isSleepSec2 : PiCamEvent → Bool
  | .sleepSec 2 => true
  | _ => false

/-- Is this event the read of `camera.exposure_speed`? -/
def isReadExposure : PiCamEvent → Bool
  | .readExposureSpeed => true
  | _ => false

/-- Is this event the read of `camera.awb_gains`? -/
def isReadAwb : PiCamEvent → Bool
  | .readAwbGains => true
  | _ => false

/-- An example calibrated settings value, used by concrete witnesses. -/
def exSettings : CaptureSettings :=
  { analog_gain := some 2, digital_gain := some 2, shutter_speed := 1500,
    awb_gains := (3 / 2, 5 / 4) }

/-- An example controller state with a cached calibration, used by concrete
witnesses. -/
def exState : CamState :=
  { settings := some exSettings,
    timer := .pending Camera.SETTINGS_UPDATE_INTERVAL,
    pixelLockHeld := false, brightness := PixelArray.IDLE_BRIGHTNESS }

/-- A reachable state of the concurrent system in which the main loop is
mid-capture: it acquired `settings_lock`, then the pixel lock, and is now
at the `capture_image` call. -/
theorem reach_capturing :
    Reachable ⟨.capturing, .idle, some .actA, some .actA, .complete 0,
      none, 1, [0]⟩ :=
  Relation.ReflTransGen.tail
    (Relation.ReflTransGen.tail Relation.ReflTransGen.refl
      (SysStep.aAcqSettings initSys rfl rfl))
    (SysStep.aAcqPixel _ rfl rfl)

/-! ## Claim theorems -/

/-- C10: for every pattern and every string containing no match of that
pattern, `find_last_match` raises `IndexError` rather than returning
`None`: the truthiness guard tests the iterator object returned by
`re.finditer`, which is always truthy, so the branch returning `None`
(modelled as `.ok none`) is unreachable for any input. -/
theorem C10_find_last_match_raises_index_error {α : Type}
    (matchAt : List Char → Option (α × List Char)) (s : String)
    (h : finditer matchAt s.data = ([] : List α)) :
    find_last_match matchAt s = .error .indexError ∧
    ∀ t : String, find_last_match matchAt t ≠ .ok none := by
  refine ⟨find_last_match_eq_error matchAt s h, fun t => ?_⟩
  unfold find_last_match
  simp only [iterTruthy, if_true]
  cases (finditer matchAt t.data).getLast? <;> simp

/-- Witness for C10 at a concrete pattern and stream. -/
theorem C10_witness :
    find_last_match matchExpAt "raspistill booted, no diagnostics" =
      (.error .indexError : Except PyErr (Option ExpGroups)) :=
  (C10_find_last_match_raises_index_error matchExpAt
    "raspistill booted, no diagnostics" (by decide)).1

/-- C2: for every diagnostic stream that lacks either of the two required
fixed-grammar patterns, calibration fails (the parse failure surfaces as
the `IndexError` raised by `find_last_match`, the concrete realisation of
the *CalibrationParseError* of the spec), and the previously cached
settings value of the controller is left unchanged by the failed
`update_settings` call. -/
theorem C2_missing_pattern_fails_and_keeps_settings
    (stderrStr : String) (st : CamState)
    (h : finditer matchExpAt stderrStr.data = ([] : List ExpGroups) ∨
         finditer matchAwbAt stderrStr.data = ([] : List AwbGroups)) :
    raspistill_update_capture_settings stderrStr = .error .indexError ∧
    (camera_update_settings st
        (raspistill_update_capture_settings stderrStr)).2.1.settings =
      st.settings ∧
    (camera_update_settings st
        (raspistill_update_capture_settings stderrStr)).2.1.timer =
      st.timer := by
  have herr : raspistill_update_capture_settings stderrStr =
      .error .indexError := by
    rcases h with h | h
    · rw [raspistill_update_capture_settings,
        find_last_match_eq_error _ _ h, bindE_error]
    · rcases hgl : (finditer matchExpAt stderrStr.data).getLast? with _ | m
      · rw [raspistill_update_capture_settings,
          find_last_match_eq_error _ _ (List.getLast?_eq_none_iff.mp hgl),
          bindE_error]
      · rw [raspistill_update_capture_settings,
          find_last_match_eq_ok _ _ _ hgl, bindE_ok,
          find_last_match_eq_error _ _ h, bindE_error]
  rw [herr]
  exact ⟨rfl, rfl, rfl⟩

/-- Witness for C2 at a concrete pattern-free stream. -/
theorem C2_witness :
    raspistill_update_capture_settings "camera boot, no mmal lines" =
      .error .indexError ∧
    (camera_update_settings exState
        (raspistill_update_capture_settings
          "camera boot, no mmal lines")).2.1.settings =
      some exSettings ∧
    (camera_update_settings exState
        (raspistill_update_capture_settings
          "camera boot, no mmal lines")).2.1.timer =
      .pending Camera.SETTINGS_UPDATE_INTERVAL :=
  C2_missing_pattern_fails_and_keeps_settings
    "camera boot, no mmal lines" exState (Or.inl (by decide))

/-- A diagnostic stream that contains one occurrence of each required
pattern but whose analog-gain denominator group is the digit string 0. -/
def c3CounterStream : String :=
  "mmal: Exposure now 1, analog gain 1/0, digital gain 1/1 mmal: AWB R=1/1, B=1/1"

/-- Counterexample to C3 as stated: this stream contains at least one
occurrence of each required pattern, yet `update_capture_settings` raises
`ZeroDivisionError` (Python float division of the parsed analog-gain pair
1/0) instead of returning a settings tuple. -/
theorem C3_counterexample :
    finditer matchExpAt c3CounterStream.data ≠ ([] : List ExpGroups) ∧
    finditer matchAwbAt c3CounterStream.data ≠ ([] : List AwbGroups) ∧
    raspistill_update_capture_settings c3CounterStream =
      .error .zeroDivisionError := by
  refine ⟨by decide, by decide, by decide⟩

/-- C3 (amended): for every diagnostic stream containing at least one
occurrence of each required pattern, whose *last* occurrences carry
non-empty digit groups and non-zero denominators, ExternalToolMode
calibration parses the last occurrence of each pattern — independently of
how many earlier occurrences precede it — and returns
`analog_gain = analog_gain_n/analog_gain_d`,
`digital_gain = digital_gain_n/digital_gain_d`,
`shutter_speed = exposure` as a number, and
`awb_gains = (awb_r_n/awb_r_d, awb_b_n/awb_b_d)`. -/
theorem C3_last_match_defines_settings (s : String)
    (m1 : ExpGroups) (m2 : AwbGroups)
    (h1 : (finditer matchExpAt s.data).getLast? = some m1)
    (h2 : (finditer matchAwbAt s.data).getLast? = some m2)
    (hagn : m1.analog_gain_n ≠ "") (hagd : m1.analog_gain_d ≠ "")
    (hdgn : m1.digital_gain_n ≠ "") (hdgd : m1.digital_gain_d ≠ "")
    (hexp : m1.exposure ≠ "")
    (hrn : m2.awb_r_n ≠ "") (hrd : m2.awb_r_d ≠ "")
    (hbn : m2.awb_b_n ≠ "") (hbd : m2.awb_b_d ≠ "")
    (hz1 : (digitsToNat m1.analog_gain_d.data : ℚ) ≠ 0)
    (hz2 : (digitsToNat m1.digital_gain_d.data : ℚ) ≠ 0)
    (hz3 : (digitsToNat m2.awb_r_d.data : ℚ) ≠ 0)
    (hz4 : (digitsToNat m2.awb_b_d.data : ℚ) ≠ 0) :
    raspistill_update_capture_settings s = .ok
      { analog_gain := some ((digitsToNat m1.analog_gain_n.data : ℚ) /
          (digitsToNat m1.analog_gain_d.data : ℚ)),
        digital_gain := some ((digitsToNat m1.digital_gain_n.data : ℚ) /
          (digitsToNat m1.digital_gain_d.data : ℚ)),
        shutter_speed := (digitsToNat m1.exposure.data : ℚ),
        awb_gains := ((digitsToNat m2.awb_r_n.data : ℚ) /
            (digitsToNat m2.awb_r_d.data : ℚ),
          (digitsToNat m2.awb_b_n.data : ℚ) /
            (digitsToNat m2.awb_b_d.data : ℚ)) } := by
  rw [raspistill_update_capture_settings,
    find_last_match_eq_ok _ _ _ h1, bindE_ok,
    find_last_match_eq_ok _ _ _ h2, bindE_ok]
  simp only [getMatch, bindE_ok]
  simp [pyFloatOfDigits, pyDiv, hagn, hagd, hdgn, hdgd, hexp,
    hrn, hrd, hbn, hbd, hz1, hz2, hz3, hz4]

/-- The example stream of the claim: an earlier converged-values line with
exposure 1200 and gains 100/50, 10/10, then a later line with exposure
1500 and gains 120/60, 20/10 (plus the required AWB lines). -/
def c3ExampleStream : String :=
  "mmal: Exposure now 1200, analog gain 100/50, digital gain 10/10 mmal: AWB R=3/2, B=5/4 mmal: Exposure now 1500, analog gain 120/60, digital gain 20/10 mmal: AWB R=6/4, B=10/8"

/-- Witness for C3 (amended) at the example stream of the claim: the last
exposure line wins, yielding shutter 1500, analog gain 2, digital gain 2. -/
theorem C3_witness :
    raspistill_update_capture_settings c3ExampleStream = .ok
      { analog_gain := some 2, digital_gain := some 2,
        shutter_speed := 1500, awb_gains := (3 / 2, 5 / 4) } := by
  have h := C3_last_match_defines_settings c3ExampleStream
    { exposure := "1500", analog_gain_n := "120", analog_gain_d := "60",
      digital_gain_n := "20", digital_gain_d := "10" }
    { awb_r_n := "6", awb_r_d := "4", awb_b_n := "10", awb_b_d := "8" }
    (by decide) (by decide) (by decide) (by decide) (by decide)
    (by decide) (by decide) (by decide) (by decide) (by decide)
    (by decide) (by decide) (by decide) (by decide) (by decide)
  rw [h]
  dsimp only
  rw [show digitsToNat "120".data = 120 from by decide,
    show digitsToNat "60".data = 60 from by decide,
    show digitsToNat "20".data = 20 from by decide,
    show digitsToNat "10".data = 10 from by decide,
    show digitsToNat "1500".data = 1500 from by decide,
    show digitsToNat "6".data = 6 from by decide,
    show digitsToNat "4".data = 4 from by decide,
    show digitsToNat "8".data = 8 from by decide]
  norm_num

/-- Counterexample to C1 as stated: a concrete `update_settings` call whose
backend calibration raises (empty diagnostic stream, hence `IndexError`)
does not execute the indicator release: no `flash_off` pixel-lock release
event is emitted, the pixel lock is left held and the brightness stays at
flash level, even though `settings_lock` itself is released by the `with`
statement. -/
theorem C1_counterexample :
    raspistill_update_capture_settings "" = .error .indexError ∧
    (camera_update_settings exState
        (raspistill_update_capture_settings "")).2.1.pixelLockHeld = true ∧
    (camera_update_settings exState
        (raspistill_update_capture_settings "")).2.1.brightness =
      PixelArray.FLASH_BRIGHTNESS ∧
    (camera_update_settings exState
        (raspistill_update_capture_settings "")).2.2.countP isPixRelease =
      0 ∧
    (camera_update_settings exState
        (raspistill_update_capture_settings "")).2.2.countP isRelSettings =
      1 := by
  exact ⟨rfl, rfl, rfl, rfl, rfl⟩

/-- C1 (amended): the indicator release is executed exactly on the success
path.  If the backend operation (`capture_image` in `take_photo`, or
`update_capture_settings` in `update_settings`) succeeds, `flash_off` runs
and the pixel lock is released; if it raises, the exception propagates,
`flash_off` is skipped, the pixel lock remains held at flash brightness,
and only `settings_lock` is released by the `with` statement. -/
theorem C1_release_only_on_success (st : CamState) (path : String)
    (calib : Except PyErr CaptureSettings) (cap : Except PyErr Unit) :
    (∀ e, calib = .error e →
      (camera_update_settings st calib).1 = .error e ∧
      (camera_update_settings st calib).2.1.pixelLockHeld = true ∧
      (camera_update_settings st calib).2.2.countP isPixRelease = 0 ∧
      (camera_update_settings st calib).2.2.countP isRelSettings = 1) ∧
    (∀ s, calib = .ok s →
      (camera_update_settings st calib).1 = .ok () ∧
      (camera_update_settings st calib).2.1.pixelLockHeld = false ∧
      (camera_update_settings st calib).2.2.countP isPixRelease = 1 ∧
      (camera_update_settings st calib).2.2.countP isRelSettings = 1) ∧
    (∀ e, cap = .error e →
      (camera_take_photo st path cap).1 = .error e ∧
      (camera_take_photo st path cap).2.1.pixelLockHeld = true ∧
      (camera_take_photo st path cap).2.2.countP isPixRelease = 0 ∧
      (camera_take_photo st path cap).2.2.countP isRelSettings = 1) ∧
    (∀ u, cap = .ok u →
      (camera_take_photo st path cap).1 = .ok () ∧
      (camera_take_photo st path cap).2.1.pixelLockHeld = false ∧
      (camera_take_photo st path cap).2.2.countP isPixRelease = 1 ∧
      (camera_take_photo st path cap).2.2.countP isRelSettings = 1) := by
  refine ⟨?_, ?_, ?_, ?_⟩
  · rintro e rfl
    exact ⟨rfl, rfl, rfl, rfl⟩
  · rintro s rfl
    exact ⟨rfl, rfl, rfl, rfl⟩
  · rintro e rfl
    exact ⟨rfl, rfl, rfl, rfl⟩
  · rintro u rfl
    exact ⟨rfl, rfl, rfl, rfl⟩

/-- Witness for C1 (amended), exercising both the error path of
`update_settings` and the success path of `take_photo` at concrete
inputs. -/
theorem C1_witness :
    ((camera_update_settings exState
        (.error .indexError)).2.1.pixelLockHeld = true ∧
      (camera_update_settings exState
        (.error .indexError)).2.2.countP isPixRelease = 0) ∧
    ((camera_take_photo exState "photos/p.jpg"
        (.ok ())).2.1.pixelLockHeld = false ∧
      (camera_take_photo exState "photos/p.jpg"
        (.ok ())).2.2.countP isPixRelease = 1) :=
  ⟨⟨((C1_release_only_on_success exState "photos/p.jpg"
        (.error .indexError) (.ok ())).1 .indexError rfl).2.1,
    ((C1_release_only_on_success exState "photos/p.jpg"
        (.error .indexError) (.ok ())).1 .indexError rfl).2.2.1⟩,
   ⟨((C1_release_only_on_success exState "photos/p.jpg"
        (.error .indexError) (.ok ())).2.2.2 () rfl).2.1,
    ((C1_release_only_on_success exState "photos/p.jpg"
        (.error .indexError) (.ok ())).2.2.2 () rfl).2.2.1⟩⟩

/-- C4: in every interleaving of the two concurrent actors (main loop
calling `take_photo`, timer thread calling `update_settings`), at most one
of the two camera operations is active at any time; while one operation is
in flight the other actor cannot enter (it stays blocked at lock
acquisition); and after a release the single waiting actor can acquire the
lock. -/
theorem C4_mutual_exclusion :
    (∀ s : Sys, Reachable s →
      ¬(s.pcA.holdsSettings = true ∧ s.pcB.holdsSettings = true)) ∧
    (∀ s t : Sys, Reachable s → SysStep s t →
      s.pcA.holdsSettings = true → s.pcB = .idle → t.pcB = .idle) ∧
    (∀ s t : Sys, Reachable s → SysStep s t →
      s.pcB.holdsSettings = true → s.pcA = .idle → t.pcA = .idle) ∧
    (∀ s : Sys, Reachable s → s.pcA = .relSettings → s.pcB = .idle →
      ∃ t u : Sys, SysStep s t ∧ SysStep t u ∧
        u.pcB = .flashOn ∧ u.sLock = some .actB) := by
  refine ⟨?_, ?_, ?_, ?_⟩
  · rintro s hr ⟨hA, hB⟩
    obtain ⟨i1, i2, -, -, -, -, -⟩ := reachable_inv hr
    have := (i1.mpr hA).symm.trans (i2.mpr hB)
    simp at this
  · intro s t hr hst hA hB
    obtain ⟨i1, -, -, -, -, -, -⟩ := reachable_inv hr
    have hs : s.sLock = some .actA := i1.mpr hA
    cases hst <;> simp_all
  · intro s t hr hst hB hA
    obtain ⟨-, i2, -, -, -, -, -⟩ := reachable_inv hr
    have hs : s.sLock = some .actB := i2.mpr hB
    cases hst <;> simp_all
  · intro s hr hA hB
    refine ⟨{ s with pcA := .idle, sLock := none },
      { s with pcA := .idle, pcB := .flashOn, sLock := some .actB },
      SysStep.aRelSettings s hA, ?_, rfl, rfl⟩
    exact SysStep.bAcqSettings _ hB rfl

/-- Witness for C4 at a concrete reachable mid-capture state. -/
theorem C4_witness :
    ¬((Sys.mk .capturing .idle (some .actA) (some .actA) (.complete 0)
        none 1 [0]).pcA.holdsSettings = true ∧
      (Sys.mk .capturing .idle (some .actA) (some .actA) (.complete 0)
        none 1 [0]).pcB.holdsSettings = true) :=
  C4_mutual_exclusion.1 _ reach_capturing

/-- C5: every capture performed by `take_photo` uses a settings value that
is the complete result of a prior finished calibration, never a partially
constructed one; and the cached settings change only by being replaced
atomically, as a whole, with the complete value a finished backend
calibration returned. -/
theorem C5_capture_uses_completed_calibration :
    (∀ s : Sys, Reachable s → s.pcA = .capturing →
      ∃ g, s.cache = .complete g ∧ g ∈ s.completed) ∧
    (∀ s t : Sys, Reachable s → SysStep s t → t.cache ≠ s.cache →
      ∃ g, s.localB = some (.complete g) ∧ t.cache = .complete g ∧
        g ∈ t.completed) := by
  constructor
  · intro s hr _
    exact (reachable_inv hr).2.2.2.2.1
  · intro s t hr hst hne
    obtain ⟨-, -, -, -, -, -, i7⟩ := reachable_inv hr
    cases hst with
    | bPublish v ha hb =>
      obtain ⟨hloc, hmem⟩ := i7 ha
      have hv : v = CalVal.complete _ := Option.some.inj (hb.symm.trans hloc)
      subst hv
      exact ⟨_, hloc, rfl, hmem⟩
    | aAcqSettings ha hb => exact absurd rfl hne
    | aAcqPixel ha hb => exact absurd rfl hne
    | aCaptureOk ha => exact absurd rfl hne
    | aCaptureRaise ha => exact absurd rfl hne
    | aFlashOff ha => exact absurd rfl hne
    | aRelSettings ha => exact absurd rfl hne
    | aErrRelSettings ha => exact absurd rfl hne
    | bAcqSettings ha hb => exact absurd rfl hne
    | bAcqPixel ha hb => exact absurd rfl hne
    | bCalibBuild ha => exact absurd rfl hne
    | bCalibRet ha => exact absurd rfl hne
    | bCalibRaise ha => exact absurd rfl hne
    | bFlashOff ha => exact absurd rfl hne
    | bRelSettings ha => exact absurd rfl hne
    | bErrRelSettings ha => exact absurd rfl hne

/-- Witness for C5 at the concrete reachable mid-capture state: the cache
being used is the completed constructor calibration, generation 0. -/
theorem C5_witness :
    ∃ g, (Sys.mk .capturing .idle (some .actA) (some .actA) (.complete 0)
        none 1 [0]).cache = .complete g ∧
      g ∈ (Sys.mk .capturing .idle (some .actA) (some .actA) (.complete 0)
        none 1 [0]).completed :=
  C5_capture_uses_completed_calibration.1 _ reach_capturing rfl

/-- C6: the controller immediately performs one blocking calibration in its
constructor, then every completed `update_settings` schedules the next
recalibration 10 minutes (600 s) ahead; `destroy` cancels a pending
not-yet-fired recalibration timer and does not abort one that already
fired. -/
theorem C6_lifecycle_timer :
    Camera.SETTINGS_UPDATE_INTERVAL = 600 ∧
    (∀ calib : Except PyErr CaptureSettings,
      (camera_init calib).2.countP isCalibrate = 1) ∧
    (∀ (calib : Except PyErr CaptureSettings) (s : CaptureSettings),
      calib = .ok s →
      (camera_init calib).1 = .ok
        { settings := some s,
          timer := .pending Camera.SETTINGS_UPDATE_INTERVAL,
          pixelLockHeld := false,
          brightness := PixelArray.IDLE_BRIGHTNESS }) ∧
    (∀ (st : CamState) (calib : Except PyErr CaptureSettings)
        (s : CaptureSettings), calib = .ok s →
      (camera_update_settings st calib).2.1.timer =
        .pending Camera.SETTINGS_UPDATE_INTERVAL) ∧
    (∀ (st : CamState) (d : Nat), st.timer = .pending d →
      (camera_destroy st).timer = .cancelled) ∧
    (∀ st : CamState, st.timer = .fired →
      (camera_destroy st).timer = .fired) := by
  refine ⟨rfl, ?_, ?_, ?_, ?_, ?_⟩
  · intro calib
    cases calib <;> rfl
  · rintro calib s rfl
    rfl
  · rintro st calib s rfl
    rfl
  · intro st d h
    simp [camera_destroy, timer_cancel, h]
  · intro st h
    simp [camera_destroy, timer_cancel, h]

/-- Witness for C6 at concrete inputs: a successful first calibration, a
pending timer being cancelled, and a fired timer being left alone. -/
theorem C6_witness :
    (camera_init (.ok exSettings)).1 = .ok
      { settings := some exSettings,
        timer := .pending Camera.SETTINGS_UPDATE_INTERVAL,
        pixelLockHeld := false,
        brightness := PixelArray.IDLE_BRIGHTNESS } ∧
    (camera_destroy exState).timer = .cancelled ∧
    (camera_destroy { exState with timer := .fired }).timer = .fired :=
  ⟨C6_lifecycle_timer.2.2.1 (.ok exSettings) exSettings rfl,
   C6_lifecycle_timer.2.2.2.2.1 exState Camera.SETTINGS_UPDATE_INTERVAL rfl,
   C6_lifecycle_timer.2.2.2.2.2 { exState with timer := .fired } rfl⟩

/-- C7: `flash_on` first acquires the pixel lock and raises brightness to
the flash level; with countdown enabled it performs exactly 3 red cycles
of 0.5 s on and 1.0 s off (4.5 s of sleeps in total) and fills solid white
only afterwards; without countdown it goes straight to white with no
sleeps; `flash_off` restores idle brightness, clears to black and releases
the lock last; `take_photo` acquires with countdown enabled while
`update_settings` acquires without. -/
theorem C7_indicator_countdown_contract :
    (flash_on true).head? = some .acquireLock ∧
    (flash_on false).head? = some .acquireLock ∧
    (flash_on true).take 2 =
      [.acquireLock, .setBrightness PixelArray.FLASH_BRIGHTNESS] ∧
    (flash_on true).count (.fill 255 0 0) = 3 ∧
    (flash_on true).count (.sleepMs 500) = 3 ∧
    (flash_on true).count (.sleepMs 1000) = 3 ∧
    sleepTotal (flash_on true) = 4500 ∧
    (flash_on true).getLast? = some .showPixels ∧
    (flash_on true).dropLast.getLast? = some (.fill 255 255 255) ∧
    flash_on false = [.acquireLock,
      .setBrightness PixelArray.FLASH_BRIGHTNESS,
      .fill 255 255 255, .showPixels] ∧
    sleepTotal (flash_on false) = 0 ∧
    flash_off = [.setBrightness PixelArray.IDLE_BRIGHTNESS, .fill 0 0 0,
      .showPixels, .releaseLock] ∧
    (∀ (st : CamState) (path : String),
      (camera_take_photo st path (.ok ())).2.2.countP isSleep500 = 3) ∧
    (∀ (st : CamState) (calib : Except PyErr CaptureSettings),
      (camera_update_settings st calib).2.2.countP isSleep500 = 0) := by
  refine ⟨rfl, rfl, rfl, by decide, by decide, by decide,
    by decide, rfl, rfl, rfl, by decide, rfl,
    ?_, ?_⟩
  · intro st path
    rfl
  · intro st calib
    cases calib <;> rfl

/-- C8: `capture_image` of ExternalToolMode invokes the external tool with
the documented fixed argument surface: the caller-supplied output path,
the configured width and height, auto-exposure and auto-white-balance
disabled with the cached calibrated analog gain, digital gain, shutter
speed and AWB gain pair passed verbatim as numeric arguments, thumbnail
generation disabled, and the short fixed timeout of 1 ms; the whole
command is a fixed 25-token template. -/
theorem C8_capture_invocation_surface (fstr : ℚ → String) (path : String)
    (w h : Nat) (s : CaptureSettings) (a d : ℚ)
    (ha : s.analog_gain = some a) (hd : s.digital_gain = some d) :
    DocumentedCaptureSurface
      (raspistill_capture_image_cmd fstr path (w, h) s) path w h
      (fstr a) (fstr d) (fstr s.shutter_speed)
      (fstr s.awb_gains.1) (fstr s.awb_gains.2) ∧
    (raspistill_capture_image_cmd fstr path (w, h) s).length = 25 := by
  constructor
  · simp only [DocumentedCaptureSurface, raspistill_capture_image_cmd, ha,
      hd, pyStrOptFloat]
    refine ⟨rfl, ?_, ?_, ?_, ?_, ?_, ?_, ?_, ?_, ?_, ?_, ?_⟩ <;>
      repeat first
        | exact HasAdjPair.here _ _ _
        | apply HasAdjPair.cons
  · rfl

/-- Renders a rational the way the witnesses print settings values. -/
def qstr (q : ℚ) : String := toString q.num ++ "/" ++ toString q.den

/-- Witness for C8 at the concrete resolution from `cam.py` and the example
settings. -/
theorem C8_witness :
    DocumentedCaptureSurface
      (raspistill_capture_image_cmd qstr "photos/photo-1.jpg" (951, 1268)
        exSettings)
      "photos/photo-1.jpg" 951 1268 (qstr 2) (qstr 2) (qstr 1500)
      (qstr (3 / 2)) (qstr (5 / 4)) :=
  (C8_capture_invocation_surface qstr "photos/photo-1.jpg" 951 1268
    exSettings 2 2 rfl rfl).1

/-- C9: LibraryMode calibration opens a scoped camera session at the
configured resolution, waits the fixed 2 s settle time before reading, and
returns settings whose shutter speed is the live exposure time and whose
AWB gains are the live white-balance pair, with analog and digital gain
left unset. -/
theorem C9_library_mode_calibration (w h : Nat)
    (session : PiCameraSession) :
    (pycamera_update_capture_settings w h session).1.analog_gain = none ∧
    (pycamera_update_capture_settings w h session).1.digital_gain = none ∧
    (pycamera_update_capture_settings w h session).1.shutter_speed =
      session.exposure_speed ∧
    (pycamera_update_capture_settings w h session).1.awb_gains =
      session.awb_gains ∧
    (pycamera_update_capture_settings w h session).2.head? =
      some (.openCamera w h) ∧
    (pycamera_update_capture_settings w h session).2.getLast? =
      some .closeCamera ∧
    (pycamera_update_capture_settings w h session).2.findIdx isSleepSec2 =
      1 ∧
    (pycamera_update_capture_settings w h session).2.findIdx
      isReadExposure = 2 ∧
    (pycamera_update_capture_settings w h session).2.findIdx isReadAwb =
      3 :=
  ⟨rfl, rfl, rfl, rfl, rfl, rfl, rfl, rfl, rfl⟩

end InfluencerTrap
